import Mathlib

/-!
# Verification of the todo-backend request-validation and persistence contract

Shallow embedding of the Express + Mongoose handlers of `src/app.js`
(the canonical snapshot) and, where it differs, of the `api/index.js`
snapshot (`src/unnamed/part_000`, first section).

Modelling conventions:
* A Mongo document store is a pure state (`DB`): the two collections as
  lists in insertion order, a logical clock supplying the
  `createdAt`/`updatedAt` timestamps (`timestamps: true` in both
  schemas), and a counter from which the server-assigned `_id` values
  are generated.
* Request bodies are records of `Option`-typed fields: `none` models a
  JSON key that is absent (destructuring yields `undefined`); the
  `extra` field carries all remaining JSON keys, which the handlers
  never read (the JS destructures only the enumerated names).
* `Todo.findById` / `Post.findById` first cast the id string to an
  ObjectId; a string that is not a valid ObjectId (24 hex characters or
  12 bytes) raises a `CastError`, which the handler's `try/catch` maps
  to a 500 response.  This is modelled by the `validObjectId` guard.
* `findByIdAndUpdate` follows Mongoose 6+ semantics: keys whose value is
  `undefined` are stripped from the update (partial merge), `new: true`
  returns the post-update document, `timestamps` refreshes `updatedAt`,
  and — since the handlers never pass `runValidators` — schema
  validators (the media `type` enum, `required`) do NOT run on updates.
* `Todo.create` / `Post.create` apply schema defaults to absent fields
  and run the schema validators; a validation failure rejects, and the
  handler's `catch` maps it to a 500 response with nothing persisted.
-/

namespace TodoBackend

/-- A persisted Todo document (`todoSchema`: required `title`, `done`
with default `false`, automatic timestamps, server-assigned id). -/
structure TodoRec where
  id : String
  title : String
  done : Bool
  createdAt : Nat
  updatedAt : Nat
deriving DecidableEq, Repr

/-- One entry of a post's `media` array: `{ type, url }`.  `mtype`
models the JSON key `type`; `url` is `Option` because the update path
can store an entry without a url (validators do not run on updates). -/
structure MediaItem where
  mtype : String
  url : Option String
deriving DecidableEq, Repr

/-- A persisted Post document (`postSchema`). -/
structure PostRec where
  id : String
  title : String
  content : String
  tags : List String
  coverImage : String
  media : List MediaItem
  createdAt : Nat
  updatedAt : Nat
deriving DecidableEq, Repr

/-- The document store state: both collections, the logical clock used
for timestamps, and the counter for server-assigned ids. -/
structure DB where
  todos : List TodoRec
  posts : List PostRec
  clock : Nat
  nextId : Nat
deriving DecidableEq, Repr

/-- Body of a `/todos` request: the handlers destructure only `title`
and `done`; every other JSON key ends up in `extra` and is never read. -/
structure TodoBody where
  title : Option String
  done : Option Bool
  extra : List (String × String)
deriving DecidableEq, Repr

/-- Body of a `/posts` request: the handlers destructure only `title`,
`content`, `tags`, `coverImage` and `media`; every other JSON key ends
up in `extra` and is never read. -/
structure PostBody where
  title : Option String
  content : Option String
  tags : Option (List String)
  coverImage : Option String
  media : Option (List MediaItem)
  extra : List (String × String)
deriving DecidableEq, Repr

/-- Response bodies produced by the handlers (`res.json(...)`). -/
inductive RespBody
  | todoDoc (t : TodoRec)
  | todoList (ts : List TodoRec)
  | postDoc (p : PostRec)
  | postList (ps : List PostRec)
  | msg (m : String)
deriving DecidableEq, Repr

/-- An HTTP response: status code and JSON body. -/
structure Resp where
  status : Nat
  body : RespBody
deriving DecidableEq, Repr

/-- `res.status(400).json({ message: 'title 是必填的' })` -/
def msgTitleRequired : String := "title 是必填的"

/-- `res.status(500).json({ message: '服务器错误' })` -/
def msgServerError : String := "服务器错误"

/-- `res.status(404).json({ message: 'Todo 不存在' })` -/
def msgTodoNotFound : String := "Todo 不存在"

/-- `res.status(404).json({ message: '文章不存在' })` -/
def msgPostNotFound : String := "文章不存在"

/-- `res.json({ message: '删除成功' })` -/
def msgDeleted : String := "删除成功"

/-- `res.status(401).json({ message: '未授权：管理密钥错误' })` -/
def msgUnauthorized : String := "未授权：管理密钥错误"

/-- JS truthiness of the destructured `title` (a string or `undefined`):
`!title` holds exactly when the key is absent or the string is empty. -/
def titleFalsy : Option String → Bool
  | none => true
  | some s => s == ""

/-- Hex digit test, for the ObjectId format. -/
def isHexDigitChar (c : Char) : Bool :=
  (decide ('0' ≤ c) && decide (c ≤ '9')) ||
  (decide ('a' ≤ c) && decide (c ≤ 'f')) ||
  (decide ('A' ≤ c) && decide (c ≤ 'F'))

/-- Mongoose accepts an id string as an ObjectId iff it is 24 hex
characters or 12 bytes long; any other string fails the cast inside
`findById` / `findByIdAndUpdate` / `findByIdAndDelete` (a `CastError`,
caught by the handler and turned into a 500 response). -/
def validObjectId (s : String) : Bool :=
  (s.length == 24 && s.toList.all isHexDigitChar) || s.length == 12

/-- The n-th hex character (`0`-`9`, `a`-`f`). -/
def hexChar (n : Nat) : Char :=
  if n < 10 then Char.ofNat (48 + n) else Char.ofNat (87 + n)

/-- Server-assigned ObjectId: 24 hex characters derived from the store's
id counter (big-endian nibbles of `n`). -/
def genId (n : Nat) : String :=
  String.mk ((List.range 24).map (fun i => hexChar (n / 16 ^ (23 - i) % 16)))

/-- `Todo.findById` after a successful ObjectId cast: first document
whose id matches (ids are unique in Mongo, so first = only). -/
def findTodo (db : DB) (id : String) : Option TodoRec :=
  db.todos.find? (fun t => t.id == id)

/-- `Post.findById` after a successful ObjectId cast. -/
def findPost (db : DB) (id : String) : Option PostRec :=
  db.posts.find? (fun p => p.id == id)

/-- Replace the (first) document with the given id. -/
def replaceTodo (ts : List TodoRec) (id : String) (u : TodoRec) : List TodoRec :=
  match ts with
  | [] => []
  | t :: rest => if t.id == id then u :: rest else t :: replaceTodo rest id u

/-- Replace the (first) post with the given id. -/
def replacePost (ps : List PostRec) (id : String) (u : PostRec) : List PostRec :=
  match ps with
  | [] => []
  | p :: rest => if p.id == id then u :: rest else p :: replacePost rest id u

/-- Remove the (first) document with the given id (`findByIdAndDelete`). -/
def removeTodo (ts : List TodoRec) (id : String) : List TodoRec :=
  match ts with
  | [] => []
  | t :: rest => if t.id == id then rest else t :: removeTodo rest id

/-- Remove the (first) post with the given id. -/
def removePost (ps : List PostRec) (id : String) : List PostRec :=
  match ps with
  | [] => []
  | p :: rest => if p.id == id then rest else p :: removePost rest id

/-- Sort order used by `Todo.find().sort({ createdAt: -1 })`:
descending creation time. -/
def createdDesc (a b : TodoRec) : Prop := b.createdAt ≤ a.createdAt

instance : DecidableRel createdDesc :=
  fun a b => Nat.decLe b.createdAt a.createdAt

instance : IsTotal TodoRec createdDesc :=
  ⟨fun a b => (Nat.le_total b.createdAt a.createdAt).imp id id⟩

instance : IsTrans TodoRec createdDesc :=
  ⟨fun _ _ _ h1 h2 => Nat.le_trans h2 h1⟩

/-- Sort order used by `Post.find().sort({ createdAt: -1 })`. -/
def postCreatedDesc (a b : PostRec) : Prop := b.createdAt ≤ a.createdAt

instance : DecidableRel postCreatedDesc :=
  fun a b => Nat.decLe b.createdAt a.createdAt

instance : IsTotal PostRec postCreatedDesc :=
  ⟨fun a b => (Nat.le_total b.createdAt a.createdAt).imp id id⟩

instance : IsTrans PostRec postCreatedDesc :=
  ⟨fun _ _ _ h1 h2 => Nat.le_trans h2 h1⟩

/-- `Todo.find().sort({ createdAt: -1 })`. -/
def sortTodosDesc (ts : List TodoRec) : List TodoRec :=
  ts.insertionSort createdDesc

/-- `Post.find().sort({ createdAt: -1 })`. -/
def sortPostsDesc (ps : List PostRec) : List PostRec :=
  ps.insertionSort postCreatedDesc

/-- `POST /todos` (src/app.js lines 70-83): destructure `{title, done}`,
reject a falsy title with 400, otherwise `new Todo({title, done}).save()`
— the schema defaults `done` to `false` when it is `undefined`, the
server assigns id and timestamps — and answer 201 with the saved doc. -/
def postTodos (b : TodoBody) (db : DB) : Resp × DB :=
  if titleFalsy b.title then
    (⟨400, .msg msgTitleRequired⟩, db)
  else
    let t : TodoRec :=
      { id := genId db.nextId, title := b.title.getD "",
        done := b.done.getD false,
        createdAt := db.clock, updatedAt := db.clock }
    (⟨201, .todoDoc t⟩,
     { db with todos := db.todos ++ [t],
               clock := db.clock + 1, nextId := db.nextId + 1 })

/-- `GET /todos` (src/app.js lines 85-93): `Todo.find().sort({createdAt:-1})`. -/
def getTodos (db : DB) : Resp × DB :=
  (⟨200, .todoList (sortTodosDesc db.todos)⟩, db)

/-- `GET /todos/:id` (src/app.js lines 95-104): `findById` — a malformed
id fails the ObjectId cast and the catch answers 500; a missing doc
answers 404; otherwise 200 with the doc. -/
def getTodoById (id : String) (db : DB) : Resp × DB :=
  if validObjectId id then
    match findTodo db id with
    | none => (⟨404, .msg msgTodoNotFound⟩, db)
    | some t => (⟨200, .todoDoc t⟩, db)
  else
    (⟨500, .msg msgServerError⟩, db)

/-- `PUT /todos/:id` (src/app.js lines 106-120): destructure
`{title, done}` and `findByIdAndUpdate(id, {title, done}, {new: true})`.
Undefined keys are stripped (partial merge), `updatedAt` is refreshed,
no upsert; `null` result answers 404, malformed id answers 500. -/
def putTodoById (id : String) (b : TodoBody) (db : DB) : Resp × DB :=
  if validObjectId id then
    match findTodo db id with
    | none => (⟨404, .msg msgTodoNotFound⟩, db)
    | some t =>
        let u : TodoRec :=
          { t with title := b.title.getD t.title,
                   done := b.done.getD t.done,
                   updatedAt := db.clock }
        (⟨200, .todoDoc u⟩,
         { db with todos := replaceTodo db.todos id u,
                   clock := db.clock + 1 })
  else
    (⟨500, .msg msgServerError⟩, db)

/-- `DELETE /todos/:id` (src/app.js lines 122-131): `findByIdAndDelete`. -/
def deleteTodoById (id : String) (db : DB) : Resp × DB :=
  if validObjectId id then
    match findTodo db id with
    | none => (⟨404, .msg msgTodoNotFound⟩, db)
    | some _ =>
        (⟨200, .msg msgDeleted⟩,
         { db with todos := removeTodo db.todos id })
  else
    (⟨500, .msg msgServerError⟩, db)

/-- Is a media entry accepted by `postSchema`'s validators:
`type` in the enum `['image','video','audio']` and `url` required. -/
def validMediaItem (m : MediaItem) : Bool :=
  (m.mtype == "image" || m.mtype == "video" || m.mtype == "audio") && m.url.isSome

/-- `POST /posts` (src/app.js lines 146-167).  NOTE: this snapshot's
handler performs NO authorization check — it never reads the
`x-admin-key` header (the `key` argument models the header carried by
the request).  It destructures the five content fields, rejects a falsy
title with 400, then `Post.create({...})`: schema defaults fill absent
fields, the media validators run, a validation failure is caught and
answered with 500 and nothing is persisted. -/
def postPosts (_key : Option String) (b : PostBody) (db : DB) : Resp × DB :=
  if titleFalsy b.title then
    (⟨400, .msg msgTitleRequired⟩, db)
  else
    let media := b.media.getD []
    if media.all validMediaItem then
      let p : PostRec :=
        { id := genId db.nextId, title := b.title.getD "",
          content := b.content.getD "", tags := b.tags.getD [],
          coverImage := b.coverImage.getD "", media := media,
          createdAt := db.clock, updatedAt := db.clock }
      (⟨201, .postDoc p⟩,
       { db with posts := db.posts ++ [p],
                 clock := db.clock + 1, nextId := db.nextId + 1 })
    else
      (⟨500, .msg msgServerError⟩, db)

/-- `POST /posts` of the `api/index.js` snapshot
(src/unnamed/part_000 lines 194-219): first compares
`req.headers['x-admin-key']` against the configured `ADMIN_KEY` and
answers 401 when they differ (an absent header is `undefined`, never
equal); only then does it run the same validation + create as above. -/
def apiPostPosts (adminKey : String) (key : Option String) (b : PostBody)
    (db : DB) : Resp × DB :=
  if key == some adminKey then
    postPosts key b db
  else
    (⟨401, .msg msgUnauthorized⟩, db)

/-- `GET /posts` (src/app.js lines 135-143). -/
def getPosts (db : DB) : Resp × DB :=
  (⟨200, .postList (sortPostsDesc db.posts)⟩, db)

/-- `GET /posts/:id` (src/app.js lines 170-179). -/
def getPostById (id : String) (db : DB) : Resp × DB :=
  if validObjectId id then
    match findPost db id with
    | none => (⟨404, .msg msgPostNotFound⟩, db)
    | some p => (⟨200, .postDoc p⟩, db)
  else
    (⟨500, .msg msgServerError⟩, db)

/-- `PUT /posts/:id` (src/app.js lines 182-196): destructure the five
content fields and `findByIdAndUpdate(id, {...}, {new: true})`.
Undefined keys are stripped (partial merge) and `updatedAt` refreshed.
Since the handler does not pass `runValidators`, the schema validators
(media `type` enum, required `url`) do NOT run on this path. -/
def putPostById (id : String) (b : PostBody) (db : DB) : Resp × DB :=
  if validObjectId id then
    match findPost db id with
    | none => (⟨404, .msg msgPostNotFound⟩, db)
    | some p =>
        let u : PostRec :=
          { p with title := b.title.getD p.title,
                   content := b.content.getD p.content,
                   tags := b.tags.getD p.tags,
                   coverImage := b.coverImage.getD p.coverImage,
                   media := b.media.getD p.media,
                   updatedAt := db.clock }
        (⟨200, .postDoc u⟩,
         { db with posts := replacePost db.posts id u,
                   clock := db.clock + 1 })
  else
    (⟨500, .msg msgServerError⟩, db)

/-- `PUT /posts/:id` of the third snapshot in src/unnamed/part_000
(lines 789-809): unlike the src/app.js handler, it destructures ONLY
`{title, content, tags}` from the body, so a supplied `coverImage` or
`media` never reaches `findByIdAndUpdate` and is silently dropped; the
three read fields follow the same partial-merge semantics. -/
def putPostByIdV3 (id : String) (b : PostBody) (db : DB) : Resp × DB :=
  if validObjectId id then
    match findPost db id with
    | none => (⟨404, .msg msgPostNotFound⟩, db)
    | some p =>
        let u : PostRec :=
          { p with title := b.title.getD p.title,
                   content := b.content.getD p.content,
                   tags := b.tags.getD p.tags,
                   updatedAt := db.clock }
        (⟨200, .postDoc u⟩,
         { db with posts := replacePost db.posts id u,
                   clock := db.clock + 1 })
  else
    (⟨500, .msg msgServerError⟩, db)

/-- `DELETE /posts/:id` (src/app.js lines 199-208). -/
def deletePostById (id : String) (db : DB) : Resp × DB :=
  if validObjectId id then
    match findPost db id with
    | none => (⟨404, .msg msgPostNotFound⟩, db)
    | some _ =>
        (⟨200, .msg msgDeleted⟩,
         { db with posts := removePost db.posts id })
  else
    (⟨500, .msg msgServerError⟩, db)

/-! ## Concrete fixtures used by counterexamples and witnesses -/

/-- The empty store. -/
def dbEmpty : DB := { todos := [], posts := [], clock := 0, nextId := 0 }

/-- A well-formed ObjectId (24 hex characters). -/
def idA : String := "aaaaaaaaaaaaaaaaaaaaaaaa"

/-- A stored Todo. -/
def todoA : TodoRec :=
  { id := idA, title := "old", done := false, createdAt := 0, updatedAt := 0 }

/-- A store holding one Todo. -/
def dbTodo : DB := { todos := [todoA], posts := [], clock := 1, nextId := 1 }

/-- A stored Post with valid (empty) media. -/
def postA : PostRec :=
  { id := idA, title := "t", content := "", tags := [], coverImage := "",
    media := [], createdAt := 0, updatedAt := 0 }

/-- A store holding one Post. -/
def dbPost : DB := { todos := [], posts := [postA], clock := 1, nextId := 1 }

/-- Todo body `{done: true}` (no title). -/
def bodyDoneTrue : TodoBody := { title := none, done := some true, extra := [] }

/-- Todo body `{title: "buy milk"}`. -/
def bodyBuyMilk : TodoBody := { title := some "buy milk", done := none, extra := [] }

/-- Empty todo body `{}`. -/
def bodyEmptyTodo : TodoBody := { title := none, done := none, extra := [] }

/-- Post body `{title: "Hello"}`. -/
def bodyHello : PostBody :=
  { title := some "Hello", content := none, tags := none, coverImage := none,
    media := none, extra := [] }

/-- Empty post body `{}`. -/
def bodyEmptyPost : PostBody :=
  { title := none, content := none, tags := none, coverImage := none,
    media := none, extra := [] }

/-- Post body `{media: [{type: "pdf", url: "u"}]}`. -/
def bodyPdfMedia : PostBody :=
  { title := none, content := none, tags := none, coverImage := none,
    media := some [{ mtype := "pdf", url := some "u" }], extra := [] }

/-- Post body `{title: "T", media: [{type: "pdf", url: "u"}]}`. -/
def bodyTitledPdf : PostBody :=
  { title := some "T", content := none, tags := none, coverImage := none,
    media := some [{ mtype := "pdf", url := some "u" }], extra := [] }

/-- Post body `{coverImage: "c.png"}`. -/
def bodyCoverOnly : PostBody :=
  { title := none, content := none, tags := none,
    coverImage := some "c.png", media := none, extra := [] }

/-- Post body `{content: "new"}`. -/
def bodyNewContent : PostBody :=
  { title := none, content := some "new", tags := none, coverImage := none,
    media := none, extra := [] }

/-- Todo body `{title: "x", done: true, id: "deadbeef", createdAt: "999"}` —
the client tries to supply its own id and timestamp. -/
def bodyExtraTodo : TodoBody :=
  { title := some "x", done := some true,
    extra := [("id", "deadbeef"), ("createdAt", "999")] }

/-- Todo body `{title: "x", done: true}` with no extra keys. -/
def bodyPlainTodo : TodoBody := { title := some "x", done := some true, extra := [] }

/-- Post body `{title: "x", id: "deadbeef", updatedAt: "999"}`. -/
def bodyExtraPost : PostBody :=
  { title := some "x", content := none, tags := none, coverImage := none,
    media := none, extra := [("id", "deadbeef"), ("updatedAt", "999")] }

/-- Post body `{title: "x"}` with no extra keys. -/
def bodyPlainPost : PostBody :=
  { title := some "x", content := none, tags := none, coverImage := none,
    media := none, extra := [] }

/-! ## Helper lemmas -/

/-- In a list sorted by descending creation time, a member that is
strictly newer than every other member is the head. -/
theorem head_of_sorted_strict_max (l : List TodoRec) (x : TodoRec)
    (hs : List.Sorted createdDesc l) (hx : x ∈ l)
    (hmax : ∀ y ∈ l, y ≠ x → y.createdAt < x.createdAt) :
    l.head? = some x := by
  cases l with
  | nil => cases hx
  | cons h t =>
      simp only [List.head?_cons, Option.some.injEq]
      by_contra hne
      have h1 : h.createdAt < x.createdAt :=
        hmax h (List.mem_cons_self h t) hne
      have hx' : x ∈ t := by
        rcases List.mem_cons.mp hx with he | ht
        · exact absurd he.symm hne
        · exact ht
      have h2 : x.createdAt ≤ h.createdAt :=
        List.rel_of_sorted_cons hs x hx'
      exact Nat.lt_irrefl _ (Nat.lt_of_lt_of_le h1 h2)

/-! ## Claim C1 -/

/-- C1 counterexample: the `src/app.js` `POST /posts` handler performs no
authorization check — a request with NO `x-admin-key` header and a valid
title is answered 201 and the Post IS persisted, so the claim as stated
(401 and nothing persisted for every request without the secret) is
false on that handler. -/
theorem postPosts_no_key_still_creates :
    (postPosts none bodyHello dbEmpty).1.status = 201 ∧
    (postPosts none bodyHello dbEmpty).1.status ≠ 401 ∧
    (postPosts none bodyHello dbEmpty).2.posts.length = 1 := by
  refine ⟨?_, ?_, ?_⟩ <;> decide

/-- C1 amended: in the `api/index.js` snapshot (part_000), every
`POST /posts` request whose `x-admin-key` header is absent or differs
from the configured secret is answered 401 and the store is unchanged
(no Post persisted), regardless of the body — in particular the
authorization failure takes precedence over title validation, since this
holds even for bodies with a missing title. -/
theorem apiPostPosts_unauthorized (adminKey : String) (key : Option String)
    (b : PostBody) (db : DB) (h : key ≠ some adminKey) :
    apiPostPosts adminKey key b db = (⟨401, .msg msgUnauthorized⟩, db) := by
  have hb : (key == some adminKey) = false := beq_eq_false_iff_ne.mpr h
  simp [apiPostPosts, hb]

/-- C1 witness: concrete application with the part_000 default secret,
an absent header, and a body that would otherwise be valid. -/
theorem apiPostPosts_unauthorized_witness :
    (none : Option String) ≠ some "dagu-admin-key" ∧
    apiPostPosts "dagu-admin-key" none bodyHello dbEmpty
      = (⟨401, .msg msgUnauthorized⟩, dbEmpty) :=
  ⟨by decide, apiPostPosts_unauthorized "dagu-admin-key" none bodyHello dbEmpty (by decide)⟩

/-! ## Claim C2 -/

/-- C2 counterexample: a malformed id (`"abc"` fails the ObjectId cast)
on `GET /todos/:id` is answered 500 (the `CastError` lands in the
`catch`), not 404 as the claim states. -/
theorem malformed_id_get_is_500_not_404 :
    (getTodoById "abc" dbEmpty).1.status = 500 ∧
    (getTodoById "abc" dbEmpty).1.status ≠ 404 := by
  refine ⟨?_, ?_⟩ <;> decide

/-- C2 amended: for every id string that does not match the store's id
format, every by-id operation (get / update / delete, on both
collections) is answered 500 — the `CastError` raised by the ObjectId
cast is caught and mapped to the generic InternalError response — and
the store is left unchanged; it is not a crash, but it is also not the
NotFound (404) outcome, which arises only for well-formed ids matching
no record. -/
theorem malformed_id_maps_to_500 (id : String) (db : DB)
    (tb : TodoBody) (pb : PostBody) (h : validObjectId id = false) :
    getTodoById id db = (⟨500, .msg msgServerError⟩, db) ∧
    putTodoById id tb db = (⟨500, .msg msgServerError⟩, db) ∧
    deleteTodoById id db = (⟨500, .msg msgServerError⟩, db) ∧
    getPostById id db = (⟨500, .msg msgServerError⟩, db) ∧
    putPostById id pb db = (⟨500, .msg msgServerError⟩, db) ∧
    deletePostById id db = (⟨500, .msg msgServerError⟩, db) := by
  refine ⟨?_, ?_, ?_, ?_, ?_, ?_⟩ <;>
    simp [getTodoById, putTodoById, deleteTodoById, getPostById,
          putPostById, deletePostById, h]

/-- C2 witness: concrete application at the malformed id `"abc"`. -/
theorem malformed_id_maps_to_500_witness :
    validObjectId "abc" = false ∧
    (getTodoById "abc" dbTodo = (⟨500, .msg msgServerError⟩, dbTodo) ∧
     putTodoById "abc" bodyDoneTrue dbTodo = (⟨500, .msg msgServerError⟩, dbTodo) ∧
     deleteTodoById "abc" dbTodo = (⟨500, .msg msgServerError⟩, dbTodo) ∧
     getPostById "abc" dbTodo = (⟨500, .msg msgServerError⟩, dbTodo) ∧
     putPostById "abc" bodyEmptyPost dbTodo = (⟨500, .msg msgServerError⟩, dbTodo) ∧
     deletePostById "abc" dbTodo = (⟨500, .msg msgServerError⟩, dbTodo)) :=
  ⟨by decide, malformed_id_maps_to_500 "abc" dbTodo bodyDoneTrue bodyEmptyPost (by decide)⟩

/-! ## Claim C5 -/

/-- C5: a `POST /todos` whose body has a missing or empty `title` is
answered 400 with the validation message, and the store — in particular
the Todo collection — is returned unchanged: no record is persisted. -/
theorem postTodos_bad_title_400_unchanged (db : DB) (b : TodoBody)
    (h : b.title = none ∨ b.title = some "") :
    postTodos b db = (⟨400, .msg msgTitleRequired⟩, db) := by
  have hf : titleFalsy b.title = true := by
    rcases h with h | h <;> simp [titleFalsy, h]
  simp [postTodos, hf]

/-- C5 witness: concrete application with the empty body. -/
theorem postTodos_bad_title_400_unchanged_witness :
    (bodyEmptyTodo.title = none ∨ bodyEmptyTodo.title = some "") ∧
    postTodos bodyEmptyTodo dbTodo = (⟨400, .msg msgTitleRequired⟩, dbTodo) :=
  ⟨Or.inl rfl, postTodos_bad_title_400_unchanged dbTodo bodyEmptyTodo (Or.inl rfl)⟩

/-! ## Claim C7 -/

/-- C7: a `PUT /todos/:id` whose (well-formed) id resolves to no
existing Todo is answered 404 and the store is returned unchanged —
`findByIdAndUpdate` runs without `upsert`, so no record is created as a
side effect of the failed update. -/
theorem putTodo_missing_id_404_no_upsert (db : DB) (id : String) (b : TodoBody)
    (hv : validObjectId id = true) (hf : findTodo db id = none) :
    putTodoById id b db = (⟨404, .msg msgTodoNotFound⟩, db) := by
  simp [putTodoById, hv, hf]

/-- C7 witness: concrete application at a well-formed id absent from the
store. -/
theorem putTodo_missing_id_404_no_upsert_witness :
    validObjectId "bbbbbbbbbbbbbbbbbbbbbbbb" = true ∧
    findTodo dbTodo "bbbbbbbbbbbbbbbbbbbbbbbb" = none ∧
    putTodoById "bbbbbbbbbbbbbbbbbbbbbbbb" bodyDoneTrue dbTodo
      = (⟨404, .msg msgTodoNotFound⟩, dbTodo) :=
  ⟨by decide, by decide,
   putTodo_missing_id_404_no_upsert dbTodo "bbbbbbbbbbbbbbbbbbbbbbbb" bodyDoneTrue
     (by decide) (by decide)⟩

/-! ## Claim C9 -/

/-- C9: every read endpoint (`GET /todos`, `GET /todos/:id`,
`GET /posts`, `GET /posts/:id`) leaves the store unchanged, for every
starting state and every id — whether the read succeeds, misses (404) or
fails the id cast (500). -/
theorem reads_leave_store_unchanged (db : DB) (id : String) :
    (getTodos db).2 = db ∧ (getTodoById id db).2 = db ∧
    (getPosts db).2 = db ∧ (getPostById id db).2 = db := by
  refine ⟨rfl, ?_, rfl, ?_⟩
  · unfold getTodoById
    split
    · split <;> rfl
    · rfl
  · unfold getPostById
    split
    · split <;> rfl
    · rfl

/-! ## Claim C3 -/

/-- C3 counterexample: the `PUT /posts/:id` handler of the third
src/unnamed/part_000 snapshot (lines 789-809) reads only `title`,
`content` and `tags` from the body, so the five-field merge claimed for
it is false there: updating an existing post whose stored `coverImage`
is `""` with the body `{coverImage: "c.png"}` is answered 200, yet the
returned (and stored) record still carries `coverImage = ""` — the
supplied value was dropped, not merged. -/
theorem putPostV3_drops_coverImage :
    bodyCoverOnly.coverImage = some "c.png" ∧
    (putPostByIdV3 idA bodyCoverOnly dbPost).1.status = 200 ∧
    (∃ u : PostRec,
       (putPostByIdV3 idA bodyCoverOnly dbPost).1.body = .postDoc u ∧
       u.coverImage = postA.coverImage ∧ u.coverImage ≠ "c.png") := by
  refine ⟨rfl, by decide, ?_⟩
  exact ⟨{ postA with updatedAt := dbPost.clock }, by decide, by decide, by decide⟩

/-- C3 amended: for every existing Post and every `PUT /posts/:id` body,
the src/app.js handler (lines 182-196; the api/index.js snapshot's
handler is identical) merges exactly the supplied fields (`title`,
`content`, `tags`, `coverImage`, `media`) into the stored record — a
field absent from the body keeps its prior value, a supplied field takes
the supplied value, id and `createdAt` are untouched — the updated
record replaces the old one in the store, and the 200 response carries
the post-update record (`new: true`), not the pre-update one.  The
third part_000 snapshot's handler merges only `title`, `content` and
`tags` (see the counterexample). -/
theorem putPost_partial_merge (db : DB) (id : String) (b : PostBody)
    (p : PostRec) (hv : validObjectId id = true)
    (hf : findPost db id = some p) :
    ∃ u : PostRec,
      putPostById id b db =
        (⟨200, .postDoc u⟩,
         { db with posts := replacePost db.posts id u, clock := db.clock + 1 }) ∧
      u.id = p.id ∧ u.createdAt = p.createdAt ∧ u.updatedAt = db.clock ∧
      (b.title = none → u.title = p.title) ∧
      (∀ s, b.title = some s → u.title = s) ∧
      (b.content = none → u.content = p.content) ∧
      (∀ s, b.content = some s → u.content = s) ∧
      (b.tags = none → u.tags = p.tags) ∧
      (∀ l, b.tags = some l → u.tags = l) ∧
      (b.coverImage = none → u.coverImage = p.coverImage) ∧
      (∀ s, b.coverImage = some s → u.coverImage = s) ∧
      (b.media = none → u.media = p.media) ∧
      (∀ l, b.media = some l → u.media = l) := by
  refine ⟨{ p with title := b.title.getD p.title,
                   content := b.content.getD p.content,
                   tags := b.tags.getD p.tags,
                   coverImage := b.coverImage.getD p.coverImage,
                   media := b.media.getD p.media,
                   updatedAt := db.clock }, ?_, rfl, rfl, rfl,
          ?_, ?_, ?_, ?_, ?_, ?_, ?_, ?_, ?_, ?_⟩
  · simp [putPostById, hv, hf]
  all_goals first
    | (intro h; simp [h])
    | (intro s h; simp [h])

/-- C3 witness: concrete application — an update supplying only
`content` leaves `title`, `tags`, `coverImage` and `media` at their
stored values. -/
theorem putPost_partial_merge_witness :
    validObjectId idA = true ∧ findPost dbPost idA = some postA ∧
    (∃ u : PostRec,
      putPostById idA bodyNewContent dbPost =
        (⟨200, .postDoc u⟩,
         { dbPost with posts := replacePost dbPost.posts idA u,
                       clock := dbPost.clock + 1 }) ∧
      u.id = postA.id ∧ u.createdAt = postA.createdAt ∧
      u.updatedAt = dbPost.clock ∧
      (bodyNewContent.title = none → u.title = postA.title) ∧
      (∀ s, bodyNewContent.title = some s → u.title = s) ∧
      (bodyNewContent.content = none → u.content = postA.content) ∧
      (∀ s, bodyNewContent.content = some s → u.content = s) ∧
      (bodyNewContent.tags = none → u.tags = postA.tags) ∧
      (∀ l, bodyNewContent.tags = some l → u.tags = l) ∧
      (bodyNewContent.coverImage = none → u.coverImage = postA.coverImage) ∧
      (∀ s, bodyNewContent.coverImage = some s → u.coverImage = s) ∧
      (bodyNewContent.media = none → u.media = postA.media) ∧
      (∀ l, bodyNewContent.media = some l → u.media = l)) :=
  ⟨by decide, by decide,
   putPost_partial_merge dbPost idA bodyNewContent postA (by decide) (by decide)⟩

/-! ## Claim C4 -/

/-- C4: for every existing Todo, a `PUT /todos/:id` whose body supplies
only `done` is answered 200 with the updated record: `done` carries the
supplied value, `title` (absent from the body, hence `undefined` and
stripped from the update) keeps the stored value, and id and `createdAt`
are untouched; the updated record replaces the old one in the store. -/
theorem putTodo_done_only_merge (db : DB) (id : String) (b : TodoBody)
    (t : TodoRec) (d : Bool) (hv : validObjectId id = true)
    (hf : findTodo db id = some t) (ht : b.title = none)
    (hd : b.done = some d) :
    ∃ u : TodoRec,
      putTodoById id b db =
        (⟨200, .todoDoc u⟩,
         { db with todos := replaceTodo db.todos id u, clock := db.clock + 1 }) ∧
      u.done = d ∧ u.title = t.title ∧ u.id = t.id ∧
      u.createdAt = t.createdAt ∧ u.updatedAt = db.clock := by
  refine ⟨{ t with done := d, updatedAt := db.clock }, ?_, rfl, rfl, rfl, rfl, rfl⟩
  simp [putTodoById, hv, hf, ht, hd]

/-- C4 witness: concrete application of the `{done: true}` update to a
stored Todo with title `"old"`. -/
theorem putTodo_done_only_merge_witness :
    validObjectId idA = true ∧ findTodo dbTodo idA = some todoA ∧
    bodyDoneTrue.title = none ∧ bodyDoneTrue.done = some true ∧
    (∃ u : TodoRec,
      putTodoById idA bodyDoneTrue dbTodo =
        (⟨200, .todoDoc u⟩,
         { dbTodo with todos := replaceTodo dbTodo.todos idA u,
                       clock := dbTodo.clock + 1 }) ∧
      u.done = true ∧ u.title = todoA.title ∧ u.id = todoA.id ∧
      u.createdAt = todoA.createdAt ∧ u.updatedAt = dbTodo.clock) :=
  ⟨by decide, by decide, rfl, rfl,
   putTodo_done_only_merge dbTodo idA bodyDoneTrue todoA true
     (by decide) (by decide) rfl rfl⟩

/-! ## Claim C6 -/

/-- C6 counterexample: the write-time rejection does NOT cover updates.
`PUT /posts/:id` with `media: [{type: "pdf", url: "u"}]` on an existing
post is answered 200 and the store now holds a Post whose media entry
has the non-enumerated type `"pdf"` — `findByIdAndUpdate` runs without
`runValidators`, so the schema's enum validator is skipped. -/
theorem putPost_persists_invalid_media :
    (putPostById idA bodyPdfMedia dbPost).1.status = 200 ∧
    (∃ p ∈ (putPostById idA bodyPdfMedia dbPost).2.posts,
       ∃ m ∈ p.media, validMediaItem m = false) := by
  refine ⟨by decide, ?_⟩
  decide

/-- C6 amended: the store-layer rejection holds on the create path only:
every `POST /posts` (both the src/app.js variant and, with the correct
secret, the api/index.js variant) whose body passes the title check but
whose `media` contains an entry with a type outside
`{image, video, audio}` or a missing url is answered 500 by the caught
`ValidationError` and persists nothing; updates, however, bypass the
schema validators (see the counterexample), so the invariant is only
guaranteed for records written by create. -/
theorem postPosts_invalid_media_rejected (key : Option String)
    (adminKey : String) (b : PostBody) (db : DB)
    (ht : titleFalsy b.title = false)
    (hm : (b.media.getD []).all validMediaItem = false) :
    postPosts key b db = (⟨500, .msg msgServerError⟩, db) ∧
    apiPostPosts adminKey (some adminKey) b db
      = (⟨500, .msg msgServerError⟩, db) := by
  constructor
  · simp [postPosts, ht, hm]
  · simp [apiPostPosts, postPosts, ht, hm]

/-- C6 witness: concrete application — creating with
`media: [{type: "pdf", url: "u"}]` is rejected with nothing persisted,
with and without the admin-key variant. -/
theorem postPosts_invalid_media_rejected_witness :
    titleFalsy bodyTitledPdf.title = false ∧
    (bodyTitledPdf.media.getD []).all validMediaItem = false ∧
    (postPosts none bodyTitledPdf dbPost = (⟨500, .msg msgServerError⟩, dbPost) ∧
     apiPostPosts "dagu-admin-key" (some "dagu-admin-key") bodyTitledPdf dbPost
       = (⟨500, .msg msgServerError⟩, dbPost)) :=
  ⟨by decide, by decide,
   postPosts_invalid_media_rejected none "dagu-admin-key" bodyTitledPdf dbPost
     (by decide) (by decide)⟩

/-! ## Claim C8 -/

/-- C8: creating a Todo with a non-empty title and no `done` field is
answered 201 with `done = false` (the schema default); provided every
stored record was created at an earlier clock tick (which every
server-driven run maintains), a subsequent `GET /todos` returns the
collection sorted by creation time descending — a permutation of the
stored collection, pairwise ordered — with the newly created record as
its first entry. -/
theorem postTodos_default_done_then_first (db : DB) (b : TodoBody) (s : String)
    (hst : b.title = some s) (hne : s ≠ "") (hdn : b.done = none)
    (hclk : ∀ t ∈ db.todos, t.createdAt < db.clock) :
    ∃ (t : TodoRec) (db2 : DB),
      postTodos b db = (⟨201, .todoDoc t⟩, db2) ∧
      t.done = false ∧ t.title = s ∧ t.createdAt = db.clock ∧
      getTodos db2 = (⟨200, .todoList (sortTodosDesc db2.todos)⟩, db2) ∧
      (sortTodosDesc db2.todos).Perm db2.todos ∧
      List.Sorted createdDesc (sortTodosDesc db2.todos) ∧
      (sortTodosDesc db2.todos).head? = some t := by
  have hft : titleFalsy (some s) = false := by
    simpa [titleFalsy] using hne
  set t0 : TodoRec :=
    { id := genId db.nextId, title := s, done := false,
      createdAt := db.clock, updatedAt := db.clock } with ht0
  refine ⟨t0,
          { db with todos := db.todos ++ [t0],
                    clock := db.clock + 1, nextId := db.nextId + 1 },
          ?_, rfl, rfl, rfl, rfl, ?_, ?_, ?_⟩
  · simp [postTodos, hft, hst, hdn]
  · exact List.perm_insertionSort createdDesc _
  · exact List.sorted_insertionSort createdDesc _
  · apply head_of_sorted_strict_max
    · exact List.sorted_insertionSort createdDesc _
    · exact (List.perm_insertionSort createdDesc _).mem_iff.mpr (by simp)
    · intro y hy hyne
      have hmem := (List.perm_insertionSort createdDesc _).mem_iff.mp hy
      rcases List.mem_append.mp hmem with hm | hm
      · exact hclk y hm
      · simp only [List.mem_singleton] at hm
        exact absurd hm hyne

/-- C8 witness: concrete application — `{title: "buy milk"}` added to a
store already holding an older Todo. -/
theorem postTodos_default_done_then_first_witness :
    bodyBuyMilk.title = some "buy milk" ∧ ("buy milk" ≠ "") ∧
    bodyBuyMilk.done = none ∧
    (∀ t ∈ dbTodo.todos, t.createdAt < dbTodo.clock) ∧
    (∃ (t : TodoRec) (db2 : DB),
      postTodos bodyBuyMilk dbTodo = (⟨201, .todoDoc t⟩, db2) ∧
      t.done = false ∧ t.title = "buy milk" ∧ t.createdAt = dbTodo.clock ∧
      getTodos db2 = (⟨200, .todoList (sortTodosDesc db2.todos)⟩, db2) ∧
      (sortTodosDesc db2.todos).Perm db2.todos ∧
      List.Sorted createdDesc (sortTodosDesc db2.todos) ∧
      (sortTodosDesc db2.todos).head? = some t) :=
  ⟨rfl, by decide, rfl, by decide,
   postTodos_default_done_then_first dbTodo bodyBuyMilk "buy milk"
     rfl (by decide) rfl (by decide)⟩

/-! ## Claim C10 -/

/-- C10: the create handlers read only the enumerated body fields —
`POST /todos` only `title` and `done`, `POST /posts` only `title`,
`content`, `tags`, `coverImage` and `media` — so two bodies agreeing on
those fields (whatever other keys, such as a client-supplied `id`,
`createdAt` or `updatedAt`, either carries) produce identical responses
and identical store states; and whenever a record is created, its id and
both timestamps are the server-assigned ones (`genId` of the store's id
counter and the store's clock), never client-influenced. -/
theorem creates_read_only_enumerated_fields (db : DB) (b1 b2 : TodoBody)
    (q1 q2 : PostBody) (key1 key2 : Option String) :
    (b1.title = b2.title → b1.done = b2.done →
       postTodos b1 db = postTodos b2 db) ∧
    (q1.title = q2.title → q1.content = q2.content → q1.tags = q2.tags →
       q1.coverImage = q2.coverImage → q1.media = q2.media →
       postPosts key1 q1 db = postPosts key2 q2 db) ∧
    (∀ t : TodoRec, (postTodos b1 db).1.body = .todoDoc t →
       t.id = genId db.nextId ∧ t.createdAt = db.clock ∧
       t.updatedAt = db.clock) ∧
    (∀ p : PostRec, (postPosts key1 q1 db).1.body = .postDoc p →
       p.id = genId db.nextId ∧ p.createdAt = db.clock ∧
       p.updatedAt = db.clock) := by
  refine ⟨?_, ?_, ?_, ?_⟩
  · intro h1 h2
    simp only [postTodos, h1, h2]
  · intro h1 h2 h3 h4 h5
    simp only [postPosts, h1, h2, h3, h4, h5]
  · intro t ht
    by_cases hf : titleFalsy b1.title
    · simp [postTodos, hf] at ht
    · simp only [postTodos, hf, Bool.false_eq_true, if_false] at ht
      injection ht with h
      subst h
      exact ⟨rfl, rfl, rfl⟩
  · intro p hp
    by_cases hf : titleFalsy q1.title
    · simp [postPosts, hf] at hp
    · by_cases hm : (q1.media.getD []).all validMediaItem
      · simp only [postPosts, hf, hm, Bool.false_eq_true, if_false,
                   if_true] at hp
        injection hp with h
        subst h
        exact ⟨rfl, rfl, rfl⟩
      · simp [postPosts, hf, hm] at hp

/-- C10 witness: concrete application — a body smuggling `id` and
timestamp keys yields the same outcome as the clean body, and the
created record carries the server-assigned id and timestamps. -/
theorem creates_read_only_enumerated_fields_witness :
    postTodos bodyExtraTodo dbTodo = postTodos bodyPlainTodo dbTodo ∧
    postPosts none bodyExtraPost dbTodo = postPosts none bodyPlainPost dbTodo ∧
    (∃ t : TodoRec, (postTodos bodyExtraTodo dbTodo).1.body = .todoDoc t ∧
       t.id = genId dbTodo.nextId ∧ t.createdAt = dbTodo.clock ∧
       t.updatedAt = dbTodo.clock) :=
  ⟨(creates_read_only_enumerated_fields dbTodo bodyExtraTodo bodyPlainTodo
      bodyExtraPost bodyPlainPost none none).1 rfl rfl,
   (creates_read_only_enumerated_fields dbTodo bodyExtraTodo bodyPlainTodo
      bodyExtraPost bodyPlainPost none none).2.1 rfl rfl rfl rfl rfl,
   ⟨{ id := genId dbTodo.nextId, title := "x", done := true,
      createdAt := dbTodo.clock, updatedAt := dbTodo.clock },
    by decide,
    (creates_read_only_enumerated_fields dbTodo bodyExtraTodo bodyPlainTodo
      bodyExtraPost bodyPlainPost none none).2.2.1 _ (by decide)⟩⟩

end TodoBackend
